import Mathlib

/-!
Verification of the affixiocore eligibility engine against its specification.

The Python sources under `backup_original/` are shallowly embedded below:
pure functions become Lean functions, the mutable `CircuitBreaker` becomes
explicit state passing, network fetches and JWT signing are modelled
symbolically (each connector call is an `Except` outcome supplied as input;
a signed token is a payload paired with the signing secret; SHA-256/SHA-512
digests are constructors of an inductive `Digest` type, so that distinct
inputs give distinct digests — the usual symbolic collision-freeness
assumption).  Python `dict`s are association lists with unique keys kept in
insertion order, exactly the observable behaviour of CPython dicts.
Python numbers are modelled as integers (no float-specific behaviour is at
stake in any claim); `bool` participates in the numeric tower as in Python.
-/

/-- Dynamically-typed Python values appearing in fact contexts, fetched
attribute maps and rule-condition comparison values.  Tuples are folded into
`list` (the evaluator treats `list` and `tuple` identically). -/
inductive Value where
  | none : Value
  | int : Int → Value
  | bool : Bool → Value
  | str : String → Value
  | list : List Value → Value
deriving Repr

/-- Python treats `bool` as a numeric type (`True == 1`); this extracts the
numeric view of a value when it has one. -/
def Value.toNum? : Value → Option Int
  | .int n => some n
  | .bool b => some (if b then 1 else 0)
  | _ => Option.none

mutual
/-- Python `==` on the modelled value types; total, never raises. -/
def pyEq : Value → Value → Bool
  | .none, .none => true
  | .str a, .str b => a == b
  | .list a, .list b => pyEqList a b
  | .int m, .int n => m == n
  | .int m, .bool b => m == (if b then (1 : Int) else 0)
  | .bool a, .int n => (if a then (1 : Int) else 0) == n
  | .bool a, .bool b => a == b
  | _, _ => false

/-- Python `==` on lists: elementwise, same length. -/
def pyEqList : List Value → List Value → Bool
  | [], [] => true
  | x :: xs, y :: ys => pyEq x y && pyEqList xs ys
  | _, _ => false
end

mutual
/-- Python `<`; `Option.none` models a raised `TypeError` on an unordered
pair of types. -/
def pyLt : Value → Value → Option Bool
  | .str a, .str b => some (decide (a < b))
  | .list a, .list b => pyLtList a b
  | a, b =>
    match a.toNum?, b.toNum? with
    | some m, some n => some (decide (m < n))
    | _, _ => Option.none

/-- Python `<` on lists: lexicographic, first non-equal pair decides; a
strict prefix is smaller. -/
def pyLtList : List Value → List Value → Option Bool
  | [], [] => some false
  | [], _ :: _ => some true
  | _ :: _, [] => some false
  | x :: xs, y :: ys => if pyEq x y then pyLtList xs ys else pyLt x y
end

mutual
/-- Python `<=`; `Option.none` models a raised `TypeError`. -/
def pyLe : Value → Value → Option Bool
  | .str a, .str b => some (decide (a ≤ b))
  | .list a, .list b => pyLeList a b
  | a, b =>
    match a.toNum?, b.toNum? with
    | some m, some n => some (decide (m ≤ n))
    | _, _ => Option.none

/-- Python `<=` on lists: lexicographic, a prefix is `<=` its extensions. -/
def pyLeList : List Value → List Value → Option Bool
  | [], _ => some true
  | _ :: _, [] => some false
  | x :: xs, y :: ys => if pyEq x y then pyLeList xs ys else pyLt x y
end

/-- Python `>` on these types is the reflected `<`. -/
def pyGt (a b : Value) : Option Bool := pyLt b a

/-- Python `>=` on these types is the reflected `<=`. -/
def pyGe (a b : Value) : Option Bool := pyLe b a

/-- Python `x in l` for a list `l`: membership up to `==`. -/
def pyInList (x : Value) (l : List Value) : Bool := l.any (pyEq x)

/-- Check that `needle` occurs at the front of `hay` (character lists). -/
def strStartsWith : List Char → List Char → Bool
  | [], _ => true
  | _ :: _, [] => false
  | a :: as, b :: bs => a == b && strStartsWith as bs

/-- Check that `needle` occurs somewhere inside `hay` (character lists). -/
def strHasSub (needle : List Char) : List Char → Bool
  | [] => needle.isEmpty
  | c :: rest => strStartsWith needle (c :: rest) || strHasSub needle rest

/-- Python `sub in s` for strings: substring test (empty needle matches). -/
def strContains (hay needle : String) : Bool := strHasSub needle.toList hay.toList

mutual
/-- Python `repr()` rendering: strings are quoted, list elements rendered
with `repr` throughout (escaping inside string contents is not modelled). -/
def pyRepr : Value → String
  | .none => "None"
  | .int n => toString n
  | .bool b => if b then "True" else "False"
  | .str s => "\x27" ++ s ++ "\x27"
  | .list l => "[" ++ String.intercalate ", " (pyReprList l) ++ "]"

/-- The `repr` renderings of the elements of a list value. -/
def pyReprList : List Value → List String
  | [] => []
  | x :: xs => pyRepr x :: pyReprList xs
end

/-- Python `str()` rendering used inside f-string reason messages: like
`repr` except that a top-level string is rendered bare. -/
def pyStr : Value → String
  | .str s => s
  | v => pyRepr v

/-- Python `str()` of a bool, as interpolated into reason messages. -/
def pyBoolStr (b : Bool) : String := if b then "True" else "False"

/-- A Python `dict` with string keys: association list, unique keys, in
insertion order. -/
abbrev Ctx := List (String × Value)

/-- Python `d[k] = v`: replace the binding in place, else append (CPython
dicts keep an existing key at its original position). -/
def dictSet : Ctx → String → Value → Ctx
  | [], k, v => [(k, v)]
  | p :: rest, k, v => if p.1 = k then (k, v) :: rest else p :: dictSet rest k v

/-- Python `d.get(k)` / `k in d`: first (on unique-key dicts, the only)
binding of `k`. -/
def dictLookup : Ctx → String → Option Value
  | [], _ => Option.none
  | p :: rest, k => if p.1 = k then some p.2 else dictLookup rest k

/-- Python `d.update(other)`: set every binding of `other` in order. -/
def dictUpdate (d other : Ctx) : Ctx :=
  other.foldl (fun acc p => dictSet acc p.1 p.2) d

/-- Result of evaluating a condition, a condition group or a rule:
the `matched: bool, reason: str` dictionary of `rules.py`. -/
structure CondResult where
  matched : Bool
  reason : String
deriving Repr, DecidableEq

/-- A leaf condition dictionary (`fact`, `operator`, `value`), as consumed
by `RuleEngine._evaluate_condition`. -/
structure RuleCondition where
  fact : String
  operator : String
  value : Value
deriving Repr

/-- A loaded rule (`logic/models.py`, class `Rule`).  The `conditions`
field is the raw Python dict keyed by the group name, modelled as an
association list of group name to leaf-condition list. -/
structure Rule where
  name : String
  conditions : List (String × List RuleCondition)
  action : String
  reason_pass : Option String := Option.none
  reason_fail : Option String := Option.none
  jurisdiction : Option String := Option.none
deriving Repr

/-- Operator whitelist of `RuleCondition.validate_operator`
(`logic/models.py` lines 68-77); true means the validator accepts the
spelling. -/
def validateOperator (v : String) : Bool :=
  v ∈ ["EQUALS", "NOT_EQUALS", "GREATER_THAN", "LESS_THAN",
       "GREATER_THAN_EQUAL", "LESS_THAN_EQUAL",
       "IN", "NOT_IN", "CONTAINS", "NOT_CONTAINS"]

/-- Action whitelist of `Rule.validate_action` (`logic/models.py` lines
87-92). -/
def validateAction (v : String) : Bool :=
  v ∈ ["GRANT_YES", "GRANT_NO", "NO_DECISION"]

/-- The reason string produced for an operator comparison,
`f"Condition {fact} {operator} {value} = {matched}"`. -/
def condReason (fact operator : String) (value : Value) (matched : Bool) : String :=
  "Condition " ++ fact ++ " " ++ operator ++ " " ++ pyStr value ++ " = " ++ pyBoolStr matched

/-- Wrap an operator comparison that may raise (`Option.none` models a
`TypeError`) into the result dictionary, mirroring the try/except of
`_evaluate_condition`; the exception text is abstracted. -/
def condOutcome (fact operator : String) (value : Value) : Option Bool → CondResult
  | some matched => { matched := matched, reason := condReason fact operator value matched }
  | Option.none => { matched := false, reason := "Error evaluating condition: TypeError" }

/-- RuleEngine._evaluate_condition (`logic/rules.py` lines 104-153). -/
def evaluateCondition (condition : RuleCondition) (context : Ctx) : CondResult :=
  match dictLookup context condition.fact with
  | Option.none =>
    { matched := false
      reason := "Fact \x27" ++ condition.fact ++ "\x27 not found in context" }
  | some actual =>
    let fact := condition.fact
    let operator := condition.operator
    let value := condition.value
    if operator = "EQUALS" then
      condOutcome fact operator value (some (pyEq actual value))
    else if operator = "NOT_EQUALS" then
      condOutcome fact operator value (some (!pyEq actual value))
    else if operator = "GREATER_THAN" then
      condOutcome fact operator value (pyGt actual value)
    else if operator = "LESS_THAN" then
      condOutcome fact operator value (pyLt actual value)
    else if operator = "GREATER_THAN_OR_EQUAL_TO" then
      condOutcome fact operator value (pyGe actual value)
    else if operator = "LESS_THAN_OR_EQUAL_TO" then
      condOutcome fact operator value (pyLe actual value)
    else if operator = "IN" then
      condOutcome fact operator value (some (match value with
        | .list l => pyInList actual l
        | _ => false))
    else if operator = "NOT_IN" then
      condOutcome fact operator value (some (match value with
        | .list l => !pyInList actual l
        | _ => false))
    else if operator = "CONTAINS" then
      match actual with
      | .list l => condOutcome fact operator value (some (pyInList value l))
      | .str s =>
        condOutcome fact operator value (match value with
          | .str sub => some (strContains s sub)
          | _ => Option.none)
      | _ => condOutcome fact operator value (some false)
    else if operator = "NOT_CONTAINS" then
      match actual with
      | .list l => condOutcome fact operator value (some (!pyInList value l))
      | .str s =>
        condOutcome fact operator value (match value with
          | .str sub => some (!strContains s sub)
          | _ => Option.none)
      | _ => condOutcome fact operator value (some false)
    else
      { matched := false, reason := "Unknown operator: " ++ operator }

/-- RuleEngine._evaluate_and_conditions (`logic/rules.py` lines 88-94):
the first non-matching result is returned as-is. -/
def evaluateAndConditions (conditions : List RuleCondition) (context : Ctx) : CondResult :=
  match conditions with
  | [] => { matched := true, reason := "All AND conditions passed" }
  | c :: rest =>
    let result := evaluateCondition c context
    if result.matched then evaluateAndConditions rest context else result

/-- RuleEngine._evaluate_or_conditions (`logic/rules.py` lines 96-102):
the first matching result is returned as-is. -/
def evaluateOrConditions (conditions : List RuleCondition) (context : Ctx) : CondResult :=
  match conditions with
  | [] => { matched := false, reason := "All OR conditions failed" }
  | c :: rest =>
    let result := evaluateCondition c context
    if result.matched then result else evaluateOrConditions rest context

/-- Python `x or default` on an optional string: `None` and the empty
string are falsy and select the default. -/
def pyOrStr (x : Option String) (default : String) : String :=
  match x with
  | Option.none => default
  | some s => if s = "" then default else s

/-- Lookup of a condition group key in the raw `conditions` dict
(Python `"AND" in conditions` / `conditions["AND"]`). -/
def condGroup (conditions : List (String × List RuleCondition)) (k : String) :
    Option (List RuleCondition) :=
  (conditions.find? (fun p => p.1 = k)).map (fun p => p.2)

/-- RuleEngine._evaluate_rule (`logic/rules.py` lines 53-86). -/
def evaluateRule (rule : Rule) (context : Ctx) : CondResult :=
  match condGroup rule.conditions "AND" with
  | some cs =>
    let result := evaluateAndConditions cs context
    if result.matched then
      { matched := true
        reason := pyOrStr rule.reason_pass
          ("All AND conditions passed for rule \x27" ++ rule.name ++ "\x27") }
    else
      { matched := false
        reason := pyOrStr rule.reason_fail ("AND condition failed: " ++ result.reason) }
  | Option.none =>
    match condGroup rule.conditions "OR" with
    | some cs =>
      let result := evaluateOrConditions cs context
      if result.matched then
        { matched := true
          reason := pyOrStr rule.reason_pass
            ("OR condition passed for rule \x27" ++ rule.name ++ "\x27") }
      else
        { matched := false
          reason := pyOrStr rule.reason_fail
            ("All OR conditions failed for rule \x27" ++ rule.name ++ "\x27") }
    | Option.none =>
      { matched := false
        reason := "Invalid rule structure for rule \x27" ++ rule.name ++ "\x27" }

/-- The jurisdiction guard of RuleEngine.evaluate (`logic/rules.py` line
32): `rule.jurisdiction and rule.jurisdiction != context.get("jurisdiction")`.
`None` and the empty string are falsy; the dict `get` of a missing key or a
non-string value is never equal to a non-empty Python `str`. -/
def skipRule (rule : Rule) (context : Ctx) : Bool :=
  match rule.jurisdiction with
  | Option.none => false
  | some j =>
    j ≠ "" &&
      (match dictLookup context "jurisdiction" with
       | some (.str s) => s ≠ j
       | _ => true)

/-- Loop body of RuleEngine.evaluate (`logic/rules.py` lines 27-51),
carrying the accumulated reasoning chain. -/
def evaluateAux (rules : List Rule) (context : Ctx) (chain : List String) :
    String × String :=
  match rules with
  | [] =>
    ("NO", if chain ≠ [] then String.intercalate " | " chain
           else "No applicable rules found")
  | rule :: rest =>
    if skipRule rule context then evaluateAux rest context chain
    else
      let result := evaluateRule rule context
      let chain := chain ++ ["Rule \x27" ++ rule.name ++ "\x27: " ++ result.reason]
      if result.matched then
        if rule.action = "GRANT_YES" then ("YES", String.intercalate " | " chain)
        else if rule.action = "GRANT_NO" then ("NO", String.intercalate " | " chain)
        else if rule.action = "NO_DECISION" then ("NO", String.intercalate " | " chain)
        else evaluateAux rest context chain
      else evaluateAux rest context chain

/-- RuleEngine.evaluate: verdict and reasoning trace for a context. -/
def evaluate (rules : List Rule) (context : Ctx) : String × String :=
  evaluateAux rules context []

/-- CircuitBreaker state (`logic/connectors.py` lines 14-44).  Wall-clock
instants are natural numbers of seconds; `datetime.now()` becomes an
explicit `now` argument to the mutating methods. -/
structure CircuitBreaker where
  failure_threshold : Nat
  timeout : Nat
  failure_count : Nat
  last_failure_time : Option Nat
  state : String
deriving Repr, DecidableEq

/-- CircuitBreaker.__init__ (defaults: threshold 5, timeout 60). -/
def initBreaker (failure_threshold : Nat := 5) (timeout : Nat := 60) : CircuitBreaker :=
  { failure_threshold := failure_threshold
    timeout := timeout
    failure_count := 0
    last_failure_time := Option.none
    state := "CLOSED" }

/-- CircuitBreaker.record_failure at instant `now`. -/
def recordFailure (now : Nat) (cb : CircuitBreaker) : CircuitBreaker :=
  let cb := { cb with failure_count := cb.failure_count + 1
                      last_failure_time := some now }
  if cb.failure_count ≥ cb.failure_threshold then { cb with state := "OPEN" } else cb

/-- CircuitBreaker.record_success. -/
def recordSuccess (cb : CircuitBreaker) : CircuitBreaker :=
  { cb with failure_count := 0, state := "CLOSED" }

/-- CircuitBreaker.can_execute at instant `now`: the returned boolean plus
the possibly-updated breaker (the OPEN to HALF_OPEN transition is a side
effect of the call).  `now - t > timeout` is the strict comparison of the
source; truncated subtraction agrees with Python for monotone clocks. -/
def canExecute (now : Nat) (cb : CircuitBreaker) : Bool × CircuitBreaker :=
  if cb.state = "CLOSED" then (true, cb)
  else if cb.state = "OPEN" then
    match cb.last_failure_time with
    | some t =>
      if now - t > cb.timeout then (true, { cb with state := "HALF_OPEN" })
      else (false, cb)
    | Option.none => (false, cb)
  else (true, cb)

/-- The guard at the head of DataConnector._make_request
(`logic/connectors.py` lines 60-62): raise before any network activity
when the breaker refuses. -/
def makeRequestGate (now : Nat) (cb : CircuitBreaker) : Except String CircuitBreaker :=
  let r := canExecute now cb
  if r.1 then .ok r.2 else .error "Circuit breaker is open"

/-- DataConnectorManager.fetch_secure_data (`logic/connectors.py` lines
117-132).  Each configured connector is represented by its name and the
outcome of its `_make_request` call (`Except` models a raised exception);
a failure is skipped, a success is merged with `dict.update`. -/
def fetchSecureData (sources : List (String × Except String Ctx)) : Ctx :=
  sources.foldl
    (fun acc p =>
      match p.2 with
      | .ok data => dictUpdate acc data
      | .error _ => acc)
    []

/-- Symbolic message digests.  Constructor injectivity models
collision-freeness of the real SHA-256 / SHA-512 hex digests. -/
inductive Digest where
  | sha256 (input : String) : Digest
  | sha512 (input : String) : Digest
deriving Repr, DecidableEq

/-- JWT claim set built by generate_verifiable_token (`core/security.py`
lines 177-203).  The redundant `issued_at` ISO rendering of `iat` is
omitted; timestamps are seconds. -/
structure JwtPayload where
  verdict : String
  secure_code : String
  jurisdiction : String
  verification_id : String
  request_hash : Digest
  iat : Nat
  exp : Nat
  reasoning_hash : Digest
deriving Repr, DecidableEq

/-- A compact signed JWT, modelled symbolically as the claim set together
with the signing secret: signature verification is comparison of secrets. -/
structure SignedToken where
  payload : JwtPayload
  secret : String
deriving Repr, DecidableEq

/-- generate_verifiable_token: claim set signed with the process secret,
expiring `expiryHours` hours after issuance. -/
def generateVerifiableToken (verdict secure_code jurisdiction verification_id : String)
    (reasoning_hash request_hash : Digest) (secret : String)
    (expiryHours now : Nat) : SignedToken :=
  { payload :=
      { verdict := verdict
        secure_code := secure_code
        jurisdiction := jurisdiction
        verification_id := verification_id
        request_hash := request_hash
        iat := now
        exp := now + expiryHours * 3600
        reasoning_hash := reasoning_hash }
    secret := secret }

/-- verify_token (`core/security.py` lines 56-69): signature check then
expiry check (expired when `exp <= now`, PyJWT with zero leeway). -/
def verifyToken (secret : String) (now : Nat) (t : SignedToken) :
    Except String JwtPayload :=
  if t.secret ≠ secret then .error "Invalid token"
  else if t.payload.exp ≤ now then .error "Token has expired"
  else .ok t.payload

/-- Python `request.client_id or 'none'`: `None` and the empty string are
falsy and become the sentinel. -/
def clientIdOrNone : Option String → String
  | Option.none => "none"
  | some s => if s = "" then "none" else s

/-- The request-binding string `f"{secure_code}:{jurisdiction}:{client_id or 'none'}"`
hashed into tokens (`core/stateless_engine.py` line 61). -/
def requestData (secure_code jurisdiction : String) (client_id : Option String) : String :=
  secure_code ++ ":" ++ jurisdiction ++ ":" ++ clientIdOrNone client_id

/-- Result dictionary of the /verify-request endpoint. -/
structure IntegrityResult where
  verified : Bool
  reason : Option String := Option.none
  verdict : Option String := Option.none
  verification_id : Option String := Option.none
  issued_at : Option Nat := Option.none
  expires_at : Option Nat := Option.none
deriving Repr, DecidableEq

/-- verify_original_request (`api/endpoints.py` lines 37-78): verify the
token, recompute the request hash from the supplied parameters, and
compare it plus the embedded subject code and jurisdiction.  A token that
fails verification is surfaced as an error (HTTP 401 in the source). -/
def verifyOriginalRequest (secret : String) (now : Nat) (token : SignedToken)
    (secure_code jurisdiction : String) (client_id : Option String) :
    Except String IntegrityResult :=
  match verifyToken secret now token with
  | .error _ => .error "Invalid token or verification failed"
  | .ok payload =>
    let request_hash := Digest.sha256 (requestData secure_code jurisdiction client_id)
    if secure_code ≠ payload.secure_code ∨ jurisdiction ≠ payload.jurisdiction ∨
        request_hash ≠ payload.request_hash then
      .ok { verified := false
            reason := some "Request parameters do not match original verification" }
    else
      .ok { verified := true
            verdict := some payload.verdict
            verification_id := some payload.verification_id
            issued_at := some payload.iat
            expires_at := some payload.exp }

/-- VerificationRequest (`logic/models.py` lines 6-23), after pydantic
validation; `security_answers` preserves submission order as an
association list. -/
structure VerificationRequest where
  secure_code : String
  jurisdiction : String := "UK"
  client_id : Option String := Option.none
  security_answers : Option (List (String × String)) := Option.none
deriving Repr

/-- VerificationResponse (`logic/models.py` lines 25-28).  `jwt_token`
and `qr_code` are strings in the source; the empty string of the
security-answer short-circuit is modelled as `Option.none`, and a signed
token, were one issued, as `some`.  The QR image is the rendering of the
token string, so it is carried as the token itself (rendering is out of
scope per the spec). -/
structure VerificationResponse where
  verdict : String
  jwt_token : Option SignedToken
  qr_code : Option SignedToken
deriving Repr, DecidableEq

/-- The security-answer field whitelist of _validate_security_answers
(`core/stateless_engine.py` lines 112-115). -/
def validFields : List String :=
  ["car_registration", "first_movie_seen", "first_pet_name",
   "mothers_maiden_name", "first_school_name", "favorite_color", "birth_town"]

/-- Drop leading whitespace characters. -/
def dropLeadingWs : List Char → List Char
  | [] => []
  | c :: rest => if c.isWhitespace then dropLeadingWs rest else c :: rest

/-- Python `str.strip()`: remove leading and trailing whitespace. -/
def pyStrip (s : String) : String :=
  String.mk ((dropLeadingWs ((dropLeadingWs s.data).reverse)).reverse)

/-- Python `str.lower()`, characterwise. -/
def pyLower (s : String) : String := String.mk (s.data.map Char.toLower)

/-- Python `.strip().lower()` normalisation of an answer. -/
def pyStripLower (s : String) : String := pyLower (pyStrip s)

/-- Python `secure_data.get(field, '').strip()` preparation of the stored
answer: a missing key defaults to the empty string; a non-string value
makes `.strip()` raise (`Option.none`), which the source's try/except
converts into a validation failure. -/
def getStored (d : Ctx) (field : String) : Option String :=
  match dictLookup d field with
  | Option.none => some ""
  | some (.str s) => some s
  | some _ => Option.none

/-- StatelessEngine._validate_security_answers (`core/stateless_engine.py`
lines 109-157): only the first provided pair is examined, every branch of
the loop body returns. -/
def validateSecurityAnswers (provided : List (String × String)) (secure_data : Ctx) :
    Bool × String :=
  match provided with
  | [] => (false, "No security answer provided")
  | (field, answer) :: _ =>
    if field ∉ validFields then
      (false, "Invalid security question field: " ++ field)
    else if pyStrip answer = "" then
      (false, "Empty security answer for: " ++ field)
    else
      match getStored secure_data field with
      | Option.none => (false, "Security validation error: AttributeError")
      | some stored =>
        if pyStripLower answer ≠ pyStripLower stored then
          (false, "Security answer mismatch for: " ++ field)
        else
          (true, "Security answer validated successfully for: " ++ field)

/-- The fact-context assembly of process_request (`core/stateless_engine.py`
lines 29-37): the three request identity fields, then `context.update`
with the fetched attributes when the fetch returned a non-empty map. -/
def requestContext (req : VerificationRequest) : Ctx :=
  [("secure_code", Value.str req.secure_code),
   ("jurisdiction", Value.str req.jurisdiction),
   ("client_id", match req.client_id with
                 | some s => Value.str s
                 | Option.none => Value.none)]

/-- Assembled fact context: `context.update(secure_data)` runs only under
`if secure_data:`. -/
def assembleContext (req : VerificationRequest) (secure_data : Ctx) : Ctx :=
  if secure_data.isEmpty then requestContext req
  else dictUpdate (requestContext req) secure_data

/-- Python truthiness of the optional `security_answers` dict. -/
def hasAnswers : Option (List (String × String)) → Bool
  | Option.none => false
  | some l => l ≠ []

/-- StatelessEngine.process_request (`core/stateless_engine.py` lines
24-89).  The fetched attribute map (outcome of `_fetch_secure_data`), the
clock and the fresh verification id are explicit inputs; `_evaluate_rules`
delegates to the total `evaluate`.  The security-answer short-circuit at
lines 45-49 returns normally, but any request that proceeds past it
reaches line 64, which calls `generate_verifiable_token` — a name this
module never defines or imports (line 10 imports only `generate_token`
and `generate_qr_code`) — so the call raises `NameError`, which the
`except` at lines 85-87 logs and re-raises; rule evaluation and the
hashes of lines 54-62 are still computed before the failing call.  The
`Except.error` case models that raised exception. -/
def processRequest (rules : List Rule) (_secret : String) (_expiryHours _now : Nat)
    (_verification_id : String) (secure_data : Ctx) (req : VerificationRequest) :
    Except String VerificationResponse :=
  let context := assembleContext req secure_data
  let failedValidation :=
    !secure_data.isEmpty && hasAnswers req.security_answers &&
      !(validateSecurityAnswers (req.security_answers.getD []) secure_data).1
  if failedValidation then
    .ok { verdict := "NO", jwt_token := Option.none, qr_code := Option.none }
  else
    let _vr := evaluate rules context
    let _reasoning_hash := Digest.sha512 _vr.2
    let _request_hash :=
      Digest.sha256 (requestData req.secure_code req.jurisdiction req.client_id)
    .error "NameError: name \x27generate_verifiable_token\x27 is not defined"

/-! Association-list lemmas shared by the claims about context assembly
and attribute merging. -/

theorem dictLookup_dictSet (c : Ctx) (k : String) (v : Value) (x : String) :
    dictLookup (dictSet c k v) x = if x = k then some v else dictLookup c x := by
  induction c with
  | nil =>
    by_cases h : x = k
    · subst h
      simp [dictSet, dictLookup]
    · have h2 : ¬ k = x := fun e => h e.symm
      simp [dictSet, dictLookup, h, h2]
  | cons p rest ih =>
    by_cases hpk : p.1 = k
    · by_cases hx : x = k
      · subst hx
        simp [dictSet, dictLookup, hpk]
      · have h2 : ¬ k = x := fun e => hx e.symm
        have h3 : ¬ p.1 = x := by rw [hpk]; exact h2
        simp [dictSet, dictLookup, hpk, hx, h2, h3]
    · by_cases hx : p.1 = x
      · have hxk : ¬ x = k := fun e => hpk (hx.trans e)
        simp [dictSet, dictLookup, hpk, hx, hxk]
      · simp [dictSet, dictLookup, hpk, hx, ih]

theorem dictLookup_of_notMem (d : Ctx) (k : String) (h : k ∉ d.map Prod.fst) :
    dictLookup d k = Option.none := by
  induction d with
  | nil => rfl
  | cons p rest ih =>
    simp only [List.map_cons, List.mem_cons, not_or] at h
    have h1 : ¬ p.1 = k := fun e => h.1 e.symm
    simp [dictLookup, h1, ih h.2]

theorem dictLookup_dictUpdate (c d : Ctx) (k : String)
    (h : (d.map Prod.fst).Nodup) :
    dictLookup (dictUpdate c d) k =
      (dictLookup d k).orElse (fun _ => dictLookup c k) := by
  induction d generalizing c with
  | nil => simp [dictUpdate, dictLookup, Option.orElse]
  | cons p rest ih =>
    simp only [List.map_cons, List.nodup_cons] at h
    have step : dictUpdate c (p :: rest) = dictUpdate (dictSet c p.1 p.2) rest := rfl
    rw [step, ih _ h.2]
    by_cases hpk : p.1 = k
    · subst hpk
      rw [dictLookup_of_notMem rest p.1 h.1]
      simp [dictLookup, dictLookup_dictSet, Option.orElse]
    · have hkp : ¬ k = p.1 := fun e => hpk e.symm
      cases hr : dictLookup rest k <;>
        simp [dictLookup, Option.orElse, dictLookup_dictSet, hpk, hkp, hr]

/-! Claims -/

/-- C1: after fact-context assembly the request identity fields hold the
request-supplied values only when the fetched attribute map does not bind
those keys; a fetched binding for `secure_code`, `jurisdiction` or
`client_id` overwrites the request value (amended from the original claim,
which `context.update(secure_data)` violates). -/
theorem claim_C1 (req : VerificationRequest) (d : Ctx)
    (h : (d.map Prod.fst).Nodup) :
    ∀ k ∈ ["secure_code", "jurisdiction", "client_id"],
      (dictLookup d k = Option.none →
        dictLookup (assembleContext req d) k = dictLookup (requestContext req) k)
      ∧ (∀ v, dictLookup d k = some v →
        dictLookup (assembleContext req d) k = some v) := by
  intro k _
  constructor
  · intro hk
    unfold assembleContext
    cases hd : d.isEmpty
    · rw [if_neg (by simp [hd]), dictLookup_dictUpdate _ _ _ h, hk]
      rfl
    · rw [if_pos (by simp [hd])]
  · intro v hk
    unfold assembleContext
    cases hd : d.isEmpty
    · rw [if_neg (by simp [hd]), dictLookup_dictUpdate _ _ _ h, hk]
      rfl
    · rw [List.isEmpty_iff] at hd
      subst hd
      cases hk

/-- C1 witness: a request with jurisdiction UK whose fetched map binds
`jurisdiction` to US yields a context holding the fetched value. -/
theorem claim_C1_witness :
    dictLookup
      (assembleContext
        { secure_code := "ABC", jurisdiction := "UK" : VerificationRequest }
        [("jurisdiction", Value.str "US")])
      "jurisdiction" = some (Value.str "US") :=
  ((claim_C1 { secure_code := "ABC", jurisdiction := "UK" }
      [("jurisdiction", Value.str "US")] (by simp)
      "jurisdiction" (by simp)).2 (Value.str "US") rfl)

/-- C1 counterexample: at the same concrete input the original claim
demands the context still hold the request jurisdiction UK, but the
assembled context holds the fetched US instead. -/
theorem claim_C1_counterexample :
    dictLookup
      (assembleContext
        { secure_code := "ABC", jurisdiction := "UK" : VerificationRequest }
        [("jurisdiction", Value.str "US")])
      "jurisdiction" = some (Value.str "US") ∧ "US" ≠ "UK" :=
  ⟨rfl, by decide⟩

/-- C4: there is no spelling of the or-equal comparison operators that is
both accepted by the schema validator and implemented by the evaluator.
The validator accepts GREATER_THAN_EQUAL / LESS_THAN_EQUAL, which the
evaluator reports as unknown operators (never matching, even when the
actual value satisfies the comparison); the evaluator implements
GREATER_THAN_OR_EQUAL_TO / LESS_THAN_OR_EQUAL_TO, which the validator
rejects, as it rejects the claim's spelling GREATER_THAN_OR_EQUAL. -/
theorem claim_C4 :
    validateOperator "GREATER_THAN_OR_EQUAL" = false ∧
    validateOperator "LESS_THAN_OR_EQUAL" = false ∧
    validateOperator "GREATER_THAN_EQUAL" = true ∧
    validateOperator "LESS_THAN_EQUAL" = true ∧
    validateOperator "GREATER_THAN_OR_EQUAL_TO" = false ∧
    validateOperator "LESS_THAN_OR_EQUAL_TO" = false ∧
    evaluateCondition ⟨"eligibility_score", "GREATER_THAN_EQUAL", .int 100⟩
        [("eligibility_score", .int 200)] =
      ⟨false, "Unknown operator: GREATER_THAN_EQUAL"⟩ ∧
    evaluateCondition ⟨"eligibility_score", "GREATER_THAN_OR_EQUAL", .int 100⟩
        [("eligibility_score", .int 200)] =
      ⟨false, "Unknown operator: GREATER_THAN_OR_EQUAL"⟩ ∧
    evaluateCondition ⟨"stability_years", "LESS_THAN_EQUAL", .int 100⟩
        [("stability_years", .int 3)] =
      ⟨false, "Unknown operator: LESS_THAN_EQUAL"⟩ ∧
    evaluateCondition ⟨"eligibility_score", "GREATER_THAN_OR_EQUAL_TO", .int 100⟩
        [("eligibility_score", .int 200)] =
      ⟨true, "Condition eligibility_score GREATER_THAN_OR_EQUAL_TO 100 = True"⟩ ∧
    evaluateCondition ⟨"stability_years", "LESS_THAN_OR_EQUAL_TO", .int 100⟩
        [("stability_years", .int 3)] =
      ⟨true, "Condition stability_years LESS_THAN_OR_EQUAL_TO 100 = True"⟩ :=
  ⟨rfl, rfl, rfl, rfl, rfl, rfl, rfl, rfl, rfl, rfl, rfl⟩

/-- The attribute maps returned by the sources whose fetch succeeded, in
source iteration order (specification side of C7). -/
def successfulAttributes (sources : List (String × Except String Ctx)) : List Ctx :=
  sources.filterMap (fun p =>
    match p.2 with
    | .ok d => some d
    | .error _ => Option.none)

/-- Merging a list of attribute maps in order with `dict.update`
(specification side of C7). -/
def mergeAll (ds : List Ctx) : Ctx := ds.foldl dictUpdate []

theorem fetchSecureData_foldl (sources : List (String × Except String Ctx))
    (acc : Ctx) :
    sources.foldl
        (fun acc p =>
          match p.2 with
          | .ok data => dictUpdate acc data
          | .error _ => acc) acc =
      (successfulAttributes sources).foldl dictUpdate acc := by
  induction sources generalizing acc with
  | nil => rfl
  | cons p rest ih =>
    cases h : p.2 <;>
      simp [successfulAttributes, List.filterMap_cons, h, ih]

/-- C7: the fan-out fetch is total on per-source outcomes: failing sources
contribute nothing, the result is the in-order merge of the successful
sources' attributes, a source appended at the end wins every key it binds
(last-write-wins), and when every source fails the result is empty. -/
theorem claim_C7 :
    (∀ sources, fetchSecureData sources = mergeAll (successfulAttributes sources)) ∧
    (∀ sources name d k, (d.map Prod.fst).Nodup →
      dictLookup (fetchSecureData (sources ++ [(name, Except.ok d)])) k =
        (dictLookup d k).orElse (fun _ => dictLookup (fetchSecureData sources) k)) ∧
    (∀ sources, (∀ p ∈ sources, ∃ e, p.2 = Except.error e) →
      fetchSecureData sources = []) := by
  refine ⟨fun sources => fetchSecureData_foldl sources [], ?_, ?_⟩
  · intro sources name d k hd
    have happ : fetchSecureData (sources ++ [(name, Except.ok d)]) =
        dictUpdate (fetchSecureData sources) d := by
      unfold fetchSecureData
      rw [List.foldl_append]
      rfl
    rw [happ, dictLookup_dictUpdate _ _ _ hd]
  · intro sources hall
    induction sources with
    | nil => rfl
    | cons p rest ih =>
      obtain ⟨e, he⟩ := hall p (by simp)
      have step : fetchSecureData (p :: rest) = fetchSecureData rest := by
        unfold fetchSecureData
        simp [he]
      rw [step]
      exact ih (fun q hq => hall q (by simp [hq]))

/-- C7 witness: one failing and one succeeding source at a shared key. -/
theorem claim_C7_witness :
    fetchSecureData [("a", Except.error "boom"),
        ("b", Except.ok [("eligibility_score", Value.int 700)])] =
      mergeAll (successfulAttributes [("a", Except.error "boom"),
        ("b", Except.ok [("eligibility_score", Value.int 700)])]) ∧
    dictLookup
      (fetchSecureData [("a", Except.ok [("eligibility_score", Value.int 1)]),
        ("b", Except.ok [("eligibility_score", Value.int 700)])])
      "eligibility_score" =
      (dictLookup [("eligibility_score", Value.int 700)] "eligibility_score").orElse
        (fun _ =>
          dictLookup (fetchSecureData [("a", Except.ok [("eligibility_score", Value.int 1)])])
            "eligibility_score") ∧
    fetchSecureData [("a", Except.error "boom"), ("b", Except.error "down")] = [] :=
  ⟨claim_C7.1 _,
   claim_C7.2.1 [("a", Except.ok [("eligibility_score", Value.int 1)])] "b"
     [("eligibility_score", Value.int 700)] "eligibility_score" (by simp),
   claim_C7.2.2 _ (by intro p hp
                      simp only [List.mem_cons, List.mem_singleton] at hp
                      rcases hp with h | h | h
                      · exact ⟨"boom", by rw [h]⟩
                      · exact ⟨"down", by rw [h]⟩
                      · cases h)⟩

/-- C6: with threshold 5 and timeout 60, five consecutive failures open
the breaker; while OPEN within the timeout window `can_execute` refuses
and `_make_request` raises before any network activity; once the timeout
has strictly elapsed `can_execute` allows one call and moves the breaker
to HALF_OPEN; `record_success` resets the count and closes the breaker. -/
theorem claim_C6 :
    (∀ t1 t2 t3 t4 t5 : Nat,
      (recordFailure t5 (recordFailure t4 (recordFailure t3 (recordFailure t2
        (recordFailure t1 (initBreaker 5 60)))))).state = "OPEN") ∧
    (∀ (cb : CircuitBreaker) (now t : Nat), cb.state = "OPEN" →
      cb.last_failure_time = some t → ¬ now - t > cb.timeout →
      canExecute now cb = (false, cb) ∧
      makeRequestGate now cb = .error "Circuit breaker is open") ∧
    (∀ (cb : CircuitBreaker) (now t : Nat), cb.state = "OPEN" →
      cb.last_failure_time = some t → now - t > cb.timeout →
      canExecute now cb = (true, { cb with state := "HALF_OPEN" })) ∧
    (∀ cb : CircuitBreaker, (recordSuccess cb).failure_count = 0 ∧
      (recordSuccess cb).state = "CLOSED") := by
  refine ⟨fun t1 t2 t3 t4 t5 => rfl, ?_, ?_, fun cb => ⟨rfl, rfl⟩⟩
  · intro cb now t hs hl hn
    have hce : canExecute now cb = (false, cb) := by
      simp [canExecute, hs, hl, hn]
    exact ⟨hce, by simp [makeRequestGate, hce]⟩
  · intro cb now t hs hl hgt
    simp [canExecute, hs, hl, hgt]

/-- C6 witness: the four parts at concrete breakers and instants. -/
theorem claim_C6_witness :
    (recordFailure 5 (recordFailure 4 (recordFailure 3 (recordFailure 2
      (recordFailure 1 (initBreaker 5 60)))))).state = "OPEN" ∧
    canExecute 130 ⟨5, 60, 5, some 100, "OPEN"⟩ = (false, ⟨5, 60, 5, some 100, "OPEN"⟩) ∧
    makeRequestGate 130 ⟨5, 60, 5, some 100, "OPEN"⟩ = .error "Circuit breaker is open" ∧
    canExecute 200 ⟨5, 60, 5, some 100, "OPEN"⟩ = (true, ⟨5, 60, 5, some 100, "HALF_OPEN"⟩) ∧
    (recordSuccess ⟨5, 60, 5, some 100, "OPEN"⟩).failure_count = 0 ∧
    (recordSuccess ⟨5, 60, 5, some 100, "OPEN"⟩).state = "CLOSED" :=
  ⟨claim_C6.1 1 2 3 4 5,
   (claim_C6.2.1 ⟨5, 60, 5, some 100, "OPEN"⟩ 130 100 rfl rfl (by decide)).1,
   (claim_C6.2.1 ⟨5, 60, 5, some 100, "OPEN"⟩ 130 100 rfl rfl (by decide)).2,
   claim_C6.2.2.1 ⟨5, 60, 5, some 100, "OPEN"⟩ 200 100 rfl rfl (by decide),
   (claim_C6.2.2.2 ⟨5, 60, 5, some 100, "OPEN"⟩).1,
   (claim_C6.2.2.2 ⟨5, 60, 5, some 100, "OPEN"⟩).2⟩

/-- States of the circuit breaker reachable from `__init__` by any
sequence of method calls, each call at an arbitrary instant. -/
inductive ReachableBreaker (threshold timeout : Nat) : CircuitBreaker → Prop where
  | start : ReachableBreaker threshold timeout (initBreaker threshold timeout)
  | fail (t : Nat) (cb : CircuitBreaker) :
      ReachableBreaker threshold timeout cb →
      ReachableBreaker threshold timeout (recordFailure t cb)
  | success (cb : CircuitBreaker) :
      ReachableBreaker threshold timeout cb →
      ReachableBreaker threshold timeout (recordSuccess cb)
  | exec (now : Nat) (cb : CircuitBreaker) :
      ReachableBreaker threshold timeout cb →
      ReachableBreaker threshold timeout (canExecute now cb).2

/-- C10: every reachable breaker state is CLOSED, OPEN or HALF_OPEN; away
from CLOSED the failure count has reached the threshold and a last-failure
instant is recorded; hence one failure in HALF_OPEN reopens the breaker. -/
theorem claim_C10 (threshold timeout : Nat) (cb : CircuitBreaker)
    (h : ReachableBreaker threshold timeout cb) :
    (cb.state = "CLOSED" ∨ cb.state = "OPEN" ∨ cb.state = "HALF_OPEN") ∧
    (cb.state ≠ "CLOSED" →
      cb.failure_threshold ≤ cb.failure_count ∧ cb.last_failure_time.isSome = true) ∧
    (cb.state = "HALF_OPEN" → ∀ t, (recordFailure t cb).state = "OPEN") := by
  have inv : (cb.state = "CLOSED" ∨ cb.state = "OPEN" ∨ cb.state = "HALF_OPEN") ∧
      (cb.state ≠ "CLOSED" →
        cb.failure_threshold ≤ cb.failure_count ∧
        cb.last_failure_time.isSome = true) := by
    induction h with
    | start => simp [initBreaker]
    | fail t cb0 hr ih =>
      by_cases hth : cb0.failure_count + 1 ≥ cb0.failure_threshold
      · have hrf : recordFailure t cb0 =
            { cb0 with failure_count := cb0.failure_count + 1
                       last_failure_time := some t
                       state := "OPEN" } := by
          simp [recordFailure, hth]
        rw [hrf]
        exact ⟨Or.inr (Or.inl rfl), fun _ => ⟨hth, rfl⟩⟩
      · have hclosed : cb0.state = "CLOSED" := by
          by_contra hne
          exact hth (Nat.le_succ_of_le (ih.2 hne).1)
        have hrf : recordFailure t cb0 =
            { cb0 with failure_count := cb0.failure_count + 1
                       last_failure_time := some t } := by
          simp [recordFailure, hth]
        rw [hrf]
        exact ⟨Or.inl hclosed, fun hne => absurd hclosed hne⟩
    | success cb0 hr ih => simp [recordSuccess]
    | exec now cb0 hr ih =>
      rcases ih.1 with hs | hs | hs
      · have hce : (canExecute now cb0).2 = cb0 := by simp [canExecute, hs]
        rw [hce]
        exact ih
      · rcases hl : cb0.last_failure_time with _ | t
        · have := (ih.2 (by simp [hs])).2
          rw [hl] at this
          cases this
        · by_cases ht : now - t > cb0.timeout
          · have hce : (canExecute now cb0).2 = { cb0 with state := "HALF_OPEN" } := by
              simp [canExecute, hs, hl, ht]
            rw [hce]
            have h2 := ih.2 (by simp [hs])
            exact ⟨Or.inr (Or.inr rfl), fun _ => ⟨h2.1, h2.2⟩⟩
          · have hce : (canExecute now cb0).2 = cb0 := by simp [canExecute, hs, hl, ht]
            rw [hce]
            exact ih
      · have hce : (canExecute now cb0).2 = cb0 := by simp [canExecute, hs]
        rw [hce]
        exact ih
  refine ⟨inv.1, inv.2, fun hs t => ?_⟩
  have hcount := (inv.2 (by simp [hs])).1
  have hth : cb.failure_count + 1 ≥ cb.failure_threshold := Nat.le_succ_of_le hcount
  simp [recordFailure, hth]

/-- C10 witness: after one failure from the initial default breaker, the
reached OPEN-or-CLOSED invariant holds; instantiated at the fully failed
breaker, whose state is OPEN, threshold 5 is below the count. -/
theorem claim_C10_witness :
    (recordFailure 4 (recordFailure 3 (recordFailure 2 (recordFailure 1
      (recordFailure 0 (initBreaker 5 60)))))).failure_threshold ≤
      (recordFailure 4 (recordFailure 3 (recordFailure 2 (recordFailure 1
        (recordFailure 0 (initBreaker 5 60)))))).failure_count ∧
    (recordFailure 4 (recordFailure 3 (recordFailure 2 (recordFailure 1
      (recordFailure 0 (initBreaker 5 60)))))).last_failure_time.isSome = true :=
  (claim_C10 5 60 _
    (ReachableBreaker.fail 4 _ (ReachableBreaker.fail 3 _ (ReachableBreaker.fail 2 _
      (ReachableBreaker.fail 1 _ (ReachableBreaker.fail 0 _
        ReachableBreaker.start)))))).2.1 (by decide)

/-- C9: issuing a verifiable token and verifying it before expiry under
the same secret succeeds and returns the same verdict and verification id,
with a reasoning hash that is the SHA-512 digest of the reasoning string. -/
theorem claim_C9 (verdict sc j vid reasoning : String) (request_hash : Digest)
    (secret : String) (expiryHours tIssue now : Nat)
    (h : now < tIssue + expiryHours * 3600) :
    ∃ p, verifyToken secret now
        (generateVerifiableToken verdict sc j vid (Digest.sha512 reasoning)
          request_hash secret expiryHours tIssue) = .ok p ∧
      p.verdict = verdict ∧ p.verification_id = vid ∧
      p.reasoning_hash = Digest.sha512 reasoning := by
  have hne : ¬ (tIssue + expiryHours * 3600 ≤ now) := Nat.not_le.mpr h
  refine ⟨{ verdict := verdict, secure_code := sc, jurisdiction := j,
            verification_id := vid, request_hash := request_hash,
            iat := tIssue, exp := tIssue + expiryHours * 3600,
            reasoning_hash := Digest.sha512 reasoning }, ?_, rfl, rfl, rfl⟩
  simp [verifyToken, generateVerifiableToken, hne]

/-- The first rule in configured order that is not skipped by its
jurisdiction filter and whose condition group matches (specification side
of C3). -/
def firstApplicable (rules : List Rule) (context : Ctx) : Option Rule :=
  rules.find? (fun r => !skipRule r context && (evaluateRule r context).matched)

/-- The verdict mapping of the specification: GRANT_YES to YES, GRANT_NO
and NO_DECISION to NO. -/
def actionVerdict (a : String) : String := if a = "GRANT_YES" then "YES" else "NO"

theorem evaluateAux_verdict (context : Ctx) (rules : List Rule) :
    ∀ chain, (∀ r ∈ rules, validateAction r.action = true) →
    (evaluateAux rules context chain).1 =
      (firstApplicable rules context).elim "NO" (fun r => actionVerdict r.action) := by
  induction rules with
  | nil =>
    intro chain _
    by_cases h : chain = [] <;> simp [evaluateAux, firstApplicable, h]
  | cons rule rest ih =>
    intro chain hv
    by_cases hskip : skipRule rule context
    · have h1 : evaluateAux (rule :: rest) context chain = evaluateAux rest context chain := by
        simp [evaluateAux, hskip]
      have h2 : firstApplicable (rule :: rest) context = firstApplicable rest context := by
        simp [firstApplicable, List.find?, hskip]
      rw [h1, h2]
      exact ih chain (fun r hr => hv r (List.mem_cons_of_mem _ hr))
    · cases hm : (evaluateRule rule context).matched
      · have h1 : evaluateAux (rule :: rest) context chain =
            evaluateAux rest context
              (chain ++ ["Rule \x27" ++ rule.name ++ "\x27: " ++
                (evaluateRule rule context).reason]) := by
          simp [evaluateAux, hskip, hm]
        have h2 : firstApplicable (rule :: rest) context = firstApplicable rest context := by
          simp [firstApplicable, List.find?, hskip, hm]
        rw [h1, h2]
        exact ih _ (fun r hr => hv r (List.mem_cons_of_mem _ hr))
      · have hva := hv rule (by simp)
        have hact : rule.action = "GRANT_YES" ∨ rule.action = "GRANT_NO" ∨
            rule.action = "NO_DECISION" := by
          simpa [validateAction] using hva
        have h2 : firstApplicable (rule :: rest) context = some rule := by
          simp [firstApplicable, List.find?, hskip, hm]
        rw [h2]
        rcases hact with h | h | h <;>
          simp [evaluateAux, hskip, hm, h, actionVerdict]

/-- C3: over a loaded rule list (every action accepted by the model
validator), evaluation returns the verdict of the first rule that is not
skipped by its jurisdiction filter and whose condition group matches,
mapped GRANT_YES to YES and GRANT_NO / NO_DECISION to NO, and NO when no
rule matches; first-match semantics means no later rule influences the
verdict. -/
theorem claim_C3 (rules : List Rule) (context : Ctx)
    (hvalid : ∀ r ∈ rules, validateAction r.action = true) :
    (evaluate rules context).1 =
      (firstApplicable rules context).elim "NO" (fun r => actionVerdict r.action) :=
  evaluateAux_verdict context rules [] hvalid

/-- C3 witness: the specification's own example rule and context. -/
theorem claim_C3_witness :
    (evaluate
      [{ name := "r1", conditions := [("AND", [⟨"age", "GREATER_THAN", .int 18⟩])],
         action := "GRANT_YES" }] [("age", .int 20)]).1 =
      (firstApplicable
        [{ name := "r1", conditions := [("AND", [⟨"age", "GREATER_THAN", .int 18⟩])],
           action := "GRANT_YES" }] [("age", .int 20)]).elim "NO"
        (fun r => actionVerdict r.action) :=
  claim_C3 _ _ (by
    intro r hr
    simp only [List.mem_singleton] at hr
    subst hr
    rfl)

theorem string_append_left_cancel (p a b : String) (h : p ++ a = p ++ b) : a = b := by
  have hd := congrArg String.data h
  simp only [String.data_append] at hd
  exact String.ext (List.append_cancel_left hd)

theorem verifyOriginalRequest_ok (verdict sc j vid : String) (rh qh : Digest)
    (secret : String) (eh tI now : Nat) (sc2 j2 : String) (cid2 : Option String)
    (hexp : now < tI + eh * 3600) :
    verifyOriginalRequest secret now
      (generateVerifiableToken verdict sc j vid rh qh secret eh tI) sc2 j2 cid2 =
    if sc2 ≠ sc ∨ j2 ≠ j ∨ Digest.sha256 (requestData sc2 j2 cid2) ≠ qh then
      .ok { verified := false,
            reason := some "Request parameters do not match original verification" }
    else .ok { verified := true, verdict := some verdict, verification_id := some vid,
               issued_at := some tI, expires_at := some (tI + eh * 3600) } := by
  have hne : ¬ (tI + eh * 3600 ≤ now) := Nat.not_le.mpr hexp
  simp [verifyOriginalRequest, verifyToken, generateVerifiableToken, hne]

/-- C2: for an unexpired, correctly signed token issued against a triple,
the request-integrity check returns verified=false when the checked
secure_code or jurisdiction differs, or when the checked client_id differs
after Python's falsy-to-sentinel collapse (`client_id or 'none'`); it
returns verified=true with the token's verdict and verification id when
all three components agree under that collapse (amended from the original
claim: `None`, the empty string and the literal string "none" are
identified by the collapse, so such client_id changes are not detected). -/
theorem claim_C2 (verdict sc j vid : String) (cid : Option String)
    (reasoning_hash : Digest) (secret : String) (expiryHours tIssue now : Nat)
    (sc2 j2 : String) (cid2 : Option String)
    (hexp : now < tIssue + expiryHours * 3600) :
    (sc2 ≠ sc ∨ j2 ≠ j ∨ clientIdOrNone cid2 ≠ clientIdOrNone cid →
      verifyOriginalRequest secret now
        (generateVerifiableToken verdict sc j vid reasoning_hash
          (Digest.sha256 (requestData sc j cid)) secret expiryHours tIssue)
        sc2 j2 cid2 =
      .ok { verified := false,
            reason := some "Request parameters do not match original verification" }) ∧
    (sc2 = sc → j2 = j → clientIdOrNone cid2 = clientIdOrNone cid →
      verifyOriginalRequest secret now
        (generateVerifiableToken verdict sc j vid reasoning_hash
          (Digest.sha256 (requestData sc j cid)) secret expiryHours tIssue)
        sc2 j2 cid2 =
      .ok { verified := true, verdict := some verdict, verification_id := some vid,
            issued_at := some tIssue,
            expires_at := some (tIssue + expiryHours * 3600) }) := by
  rw [verifyOriginalRequest_ok verdict sc j vid reasoning_hash _ secret _ _ now sc2 j2 cid2 hexp]
  constructor
  · intro hmis
    have hcond : sc2 ≠ sc ∨ j2 ≠ j ∨
        Digest.sha256 (requestData sc2 j2 cid2) ≠ Digest.sha256 (requestData sc j cid) := by
      rcases hmis with hsc | hj | hcid
      · exact Or.inl hsc
      · exact Or.inr (Or.inl hj)
      · by_cases hsc2 : sc2 = sc
        · by_cases hj2 : j2 = j
          · subst hsc2
            subst hj2
            refine Or.inr (Or.inr fun hEq => hcid ?_)
            have h1 : requestData sc2 j2 cid2 = requestData sc2 j2 cid :=
              Digest.sha256.inj hEq
            exact string_append_left_cancel (sc2 ++ ":" ++ j2 ++ ":") _ _ h1
          · exact Or.inr (Or.inl hj2)
        · exact Or.inl hsc2
    rw [if_pos hcond]
  · intro hsc hj hcid
    subst hsc
    subst hj
    have hreq : requestData sc2 j2 cid2 = requestData sc2 j2 cid := by
      unfold requestData
      rw [hcid]
    rw [if_neg]
    push_neg
    exact ⟨rfl, rfl, by rw [hreq]⟩

/-- C2 witness: a token issued for client alice is rejected when checked
for client bob and accepted when checked for alice. -/
theorem claim_C2_witness :
    verifyOriginalRequest "sec" 0
      (generateVerifiableToken "YES" "ABC" "UK" "vid1" (Digest.sha512 "r")
        (Digest.sha256 (requestData "ABC" "UK" (some "alice"))) "sec" 24 0)
      "ABC" "UK" (some "bob") =
      .ok { verified := false,
            reason := some "Request parameters do not match original verification" } ∧
    verifyOriginalRequest "sec" 0
      (generateVerifiableToken "YES" "ABC" "UK" "vid1" (Digest.sha512 "r")
        (Digest.sha256 (requestData "ABC" "UK" (some "alice"))) "sec" 24 0)
      "ABC" "UK" (some "alice") =
      .ok { verified := true, verdict := some "YES", verification_id := some "vid1",
            issued_at := some 0, expires_at := some 86400 } :=
  ⟨(claim_C2 "YES" "ABC" "UK" "vid1" (some "alice") (Digest.sha512 "r") "sec" 24 0 0
      "ABC" "UK" (some "bob") (by decide)).1 (Or.inr (Or.inr (by decide))),
   (claim_C2 "YES" "ABC" "UK" "vid1" (some "alice") (Digest.sha512 "r") "sec" 24 0 0
      "ABC" "UK" (some "alice") (by decide)).2 rfl rfl rfl⟩

/-- C2 counterexample: a token issued with client_id None is accepted when
checked with the different client_id "none", because both collapse to the
sentinel; the original claim demands verified=false for any differing
component. -/
theorem claim_C2_counterexample :
    (some "none" ≠ (Option.none : Option String)) ∧
    verifyOriginalRequest "sec" 0
      (generateVerifiableToken "YES" "ABC" "UK" "vid1" (Digest.sha512 "r")
        (Digest.sha256 (requestData "ABC" "UK" Option.none)) "sec" 24 0)
      "ABC" "UK" (some "none") =
      .ok { verified := true, verdict := some "YES", verification_id := some "vid1",
            issued_at := some 0, expires_at := some 86400 } :=
  ⟨by decide, rfl⟩

/-- C8: an AND group matches iff every leaf matches, and on failure the
group result is the first failing leaf's result, which supplies the
failure reason of a rule without reason templates (prefixed
"AND condition failed: "); an OR group matches iff some leaf matches, and
on success the group result is the first matching leaf's result; a leaf
whose fact is absent from the context fails closed recording that the
fact was not found. -/
theorem claim_C8 (context : Ctx) :
    (∀ cs, (evaluateAndConditions cs context).matched =
        cs.all (fun c => (evaluateCondition c context).matched)) ∧
    (∀ cs c, cs.find? (fun x => !(evaluateCondition x context).matched) = some c →
        evaluateAndConditions cs context = evaluateCondition c context) ∧
    (∀ cs, (evaluateOrConditions cs context).matched =
        cs.any (fun c => (evaluateCondition c context).matched)) ∧
    (∀ cs c, cs.find? (fun x => (evaluateCondition x context).matched) = some c →
        evaluateOrConditions cs context = evaluateCondition c context) ∧
    (∀ (r : Rule) cs, r.reason_pass = Option.none → r.reason_fail = Option.none →
        condGroup r.conditions "AND" = some cs →
        ((evaluateRule r context).matched =
            cs.all (fun c => (evaluateCondition c context).matched)) ∧
        (∀ c, cs.find? (fun x => !(evaluateCondition x context).matched) = some c →
          (evaluateRule r context).reason =
            "AND condition failed: " ++ (evaluateCondition c context).reason)) ∧
    (∀ (r : Rule) cs, r.reason_pass = Option.none → r.reason_fail = Option.none →
        condGroup r.conditions "AND" = Option.none →
        condGroup r.conditions "OR" = some cs →
        (evaluateRule r context).matched =
          cs.any (fun c => (evaluateCondition c context).matched)) ∧
    (∀ c : RuleCondition, dictLookup context c.fact = Option.none →
        evaluateCondition c context =
          ⟨false, "Fact \x27" ++ c.fact ++ "\x27 not found in context"⟩) := by
  have andMatched : ∀ cs, (evaluateAndConditions cs context).matched =
      cs.all (fun c => (evaluateCondition c context).matched) := by
    intro cs
    induction cs with
    | nil => rfl
    | cons c rest ih =>
      cases hm : (evaluateCondition c context).matched <;>
        simp [evaluateAndConditions, hm, ih]
  have andFirst : ∀ cs c,
      cs.find? (fun x => !(evaluateCondition x context).matched) = some c →
      evaluateAndConditions cs context = evaluateCondition c context := by
    intro cs
    induction cs with
    | nil => intro c h; cases h
    | cons c0 rest ih =>
      intro c h
      cases hm : (evaluateCondition c0 context).matched
      · rw [List.find?_cons_of_pos _ (by simp [hm])] at h
        cases h
        simp [evaluateAndConditions, hm]
      · rw [List.find?_cons_of_neg _ (by simp [hm])] at h
        simp [evaluateAndConditions, hm, ih c h]
  have orMatched : ∀ cs, (evaluateOrConditions cs context).matched =
      cs.any (fun c => (evaluateCondition c context).matched) := by
    intro cs
    induction cs with
    | nil => rfl
    | cons c rest ih =>
      cases hm : (evaluateCondition c context).matched <;>
        simp [evaluateOrConditions, hm, ih]
  have orFirst : ∀ cs c,
      cs.find? (fun x => (evaluateCondition x context).matched) = some c →
      evaluateOrConditions cs context = evaluateCondition c context := by
    intro cs
    induction cs with
    | nil => intro c h; cases h
    | cons c0 rest ih =>
      intro c h
      cases hm : (evaluateCondition c0 context).matched
      · rw [List.find?_cons_of_neg _ (by simp [hm])] at h
        simp [evaluateOrConditions, hm, ih c h]
      · rw [List.find?_cons_of_pos _ (by simp [hm])] at h
        cases h
        simp [evaluateOrConditions, hm]
  refine ⟨andMatched, andFirst, orMatched, orFirst, ?_, ?_, ?_⟩
  · intro r cs hp hf hand
    constructor
    · have hm : (evaluateRule r context).matched =
          (evaluateAndConditions cs context).matched := by
        simp only [evaluateRule, hand]
        cases hm : (evaluateAndConditions cs context).matched <;> simp [hm]
      rw [hm, andMatched]
    · intro c hfind
      have hpc := List.find?_some hfind
      have hcm : (evaluateCondition c context).matched = false := by
        simpa using hpc
      have hnm : (evaluateAndConditions cs context).matched = false := by
        rw [andFirst cs c hfind]
        exact hcm
      simp [evaluateRule, hand, hnm, hcm, hf, pyOrStr, andFirst cs c hfind]
  · intro r cs hp hf hand hor
    have hm : (evaluateRule r context).matched =
        (evaluateOrConditions cs context).matched := by
      simp only [evaluateRule, hand, hor]
      cases hm : (evaluateOrConditions cs context).matched <;> simp [hm]
    rw [hm, orMatched]
  · intro c h
    simp [evaluateCondition, h]

/-- C8 witness: concrete AND group with a failing second leaf, the rule
wrapping it with no reason templates, and an absent fact. -/
theorem claim_C8_witness :
    evaluateAndConditions
        [⟨"age", "GREATER_THAN", .int 18⟩, ⟨"age", "LESS_THAN", .int 5⟩]
        [("age", Value.int 20)] =
      evaluateCondition ⟨"age", "LESS_THAN", .int 5⟩ [("age", Value.int 20)] ∧
    (evaluateRule
        { name := "r", conditions := [("AND",
            [⟨"age", "GREATER_THAN", .int 18⟩, ⟨"age", "LESS_THAN", .int 5⟩])],
          action := "GRANT_NO" } [("age", Value.int 20)]).reason =
      "AND condition failed: " ++
        (evaluateCondition ⟨"age", "LESS_THAN", .int 5⟩ [("age", Value.int 20)]).reason ∧
    evaluateOrConditions
        [⟨"age", "LESS_THAN", .int 5⟩, ⟨"age", "GREATER_THAN", .int 18⟩]
        [("age", Value.int 20)] =
      evaluateCondition ⟨"age", "GREATER_THAN", .int 18⟩ [("age", Value.int 20)] ∧
    evaluateCondition ⟨"height", "EQUALS", .int 1⟩ [("age", Value.int 20)] =
      ⟨false, "Fact \x27height\x27 not found in context"⟩ :=
  ⟨(claim_C8 [("age", Value.int 20)]).2.1 _ _ (by rfl),
   ((claim_C8 [("age", Value.int 20)]).2.2.2.2.1 _ _ rfl rfl (by rfl)).2 _ (by rfl),
   (claim_C8 [("age", Value.int 20)]).2.2.2.1 _ _ (by rfl),
   (claim_C8 [("age", Value.int 20)]).2.2.2.2.2.2 _ (by rfl)⟩

/-- The acceptance condition of a first provided security-answer pair
(specification side of C5): known field, non-blank answer, and trimmed
case-folded agreement with the stored string attribute. -/
def answerAccepted (field answer : String) (d : Ctx) : Bool :=
  field ∈ validFields && pyStrip answer ≠ "" &&
    (match getStored d field with
     | some stored => pyStripLower answer == pyStripLower stored
     | Option.none => false)

theorem validateSecurityAnswers_fst (f a : String) (rest : List (String × String))
    (d : Ctx) :
    (validateSecurityAnswers ((f, a) :: rest) d).1 = answerAccepted f a d := by
  unfold validateSecurityAnswers answerAccepted
  by_cases h1 : f ∈ validFields
  · by_cases h2 : pyStrip a = ""
    · simp [h1, h2]
    · cases h3 : getStored d f with
      | none => simp [h1, h2, h3]
      | some stored =>
        by_cases h4 : pyStripLower a = pyStripLower stored
        · simp [h1, h2, h3, h4]
        · simp [h1, h2, h3, h4]
  · simp [h1]

/-- C5: provided the attribute fetch returned a non-empty map, a request
whose first security-answer pair is rejected (unknown field, blank answer,
or trimmed case-folded mismatch against the fetched attribute) returns
verdict NO with empty token and QR code, independently of the rule list
(rule evaluation is never invoked); an accepted first answer passes the
security gate and processing continues past it — rule evaluation is
invoked (lines 54-62 run before the failing call) — but the request then
raises `NameError` at line 64's call to the never-imported
`generate_verifiable_token`, so no token-bearing response is returned
(amended from the original claim: when the fetch returns an empty map the
whole validation block is skipped, and the continuation path ends in the
`NameError`, not in token issuance). -/
theorem claim_C5 (rules : List Rule) (secret : String) (expiryHours now : Nat)
    (vid : String) (d : Ctx) (req : VerificationRequest)
    (f a : String) (rest : List (String × String))
    (hd : d ≠ [])
    (ha : req.security_answers = some ((f, a) :: rest)) :
    (answerAccepted f a d = false →
      processRequest rules secret expiryHours now vid d req =
        .ok { verdict := "NO", jwt_token := Option.none, qr_code := Option.none }) ∧
    (answerAccepted f a d = true →
      processRequest rules secret expiryHours now vid d req =
        .error "NameError: name \x27generate_verifiable_token\x27 is not defined") := by
  have hde : d.isEmpty = false := by
    cases d
    · exact absurd rfl hd
    · rfl
  have hans : hasAnswers req.security_answers = true := by simp [ha, hasAnswers]
  have hgetD : req.security_answers.getD [] = (f, a) :: rest := by rw [ha]; rfl
  constructor
  · intro hacc
    simp [processRequest, hde, hans, hgetD, validateSecurityAnswers_fst, hacc]
  · intro hacc
    simp [processRequest, hde, hans, hgetD, validateSecurityAnswers_fst, hacc]

/-- C5 witness: with a fetched car registration, a wrong first answer
short-circuits to the empty NO response, and a correct (differently
cased, padded) one passes the gate, after which the request fails with
the NameError of the missing import. -/
theorem claim_C5_witness :
    processRequest [] "sec" 24 0 "vid" [("car_registration", Value.str "AB12 CDE")]
      { secure_code := "ABC", jurisdiction := "UK",
        security_answers := some [("car_registration", "WRONG")] } =
      .ok { verdict := "NO", jwt_token := Option.none, qr_code := Option.none } ∧
    processRequest [] "sec" 24 0 "vid" [("car_registration", Value.str "AB12 CDE")]
      { secure_code := "ABC", jurisdiction := "UK",
        security_answers := some [("car_registration", " ab12 CDE ")] } =
      .error "NameError: name \x27generate_verifiable_token\x27 is not defined" :=
  ⟨(claim_C5 [] "sec" 24 0 "vid" [("car_registration", Value.str "AB12 CDE")]
      { secure_code := "ABC", jurisdiction := "UK",
        security_answers := some [("car_registration", "WRONG")] }
      "car_registration" "WRONG" [] (by simp) rfl).1 (by rfl),
   (claim_C5 [] "sec" 24 0 "vid" [("car_registration", Value.str "AB12 CDE")]
      { secure_code := "ABC", jurisdiction := "UK",
        security_answers := some [("car_registration", " ab12 CDE ")] }
      "car_registration" " ab12 CDE " [] (by simp) rfl).2 (by rfl)⟩

/-- C5 counterexample: the first provided pair names an unknown field, so
the original claim demands verdict NO with an empty token and no rule
evaluation; but the fetch returned an empty map, the validation block is
skipped, processing continues to rule evaluation, and the request ends in
the NameError of the missing import — not in the claimed NO response. -/
theorem claim_C5_counterexample :
    answerAccepted "bogus_field" "x" [] = false ∧
    processRequest [] "sec" 24 0 "vid" []
      { secure_code := "ABC", jurisdiction := "UK",
        security_answers := some [("bogus_field", "x")] } =
      .error "NameError: name \x27generate_verifiable_token\x27 is not defined" ∧
    processRequest [] "sec" 24 0 "vid" []
      { secure_code := "ABC", jurisdiction := "UK",
        security_answers := some [("bogus_field", "x")] } ≠
      .ok { verdict := "NO", jwt_token := Option.none, qr_code := Option.none } :=
  ⟨rfl, rfl, fun h => Except.noConfusion h⟩

/-- C9 witness: a concrete round-trip verified at issuance time. -/
theorem claim_C9_witness :
    ∃ p, verifyToken "sec" 0
        (generateVerifiableToken "YES" "ABC" "UK" "vid" (Digest.sha512 "because")
          (Digest.sha256 "ABC:UK:none") "sec" 24 0) = .ok p ∧
      p.verdict = "YES" ∧ p.verification_id = "vid" ∧
      p.reasoning_hash = Digest.sha512 "because" :=
  claim_C9 "YES" "ABC" "UK" "vid" "because" (Digest.sha256 "ABC:UK:none")
    "sec" 24 0 0 (by decide)

